import Mathlib

/-!
# Verification of the fastMDA device-control core

Shallow embedding of `src/fastmda/objects.py`, `src/fastmda/schemas.py`,
`src/fastmda/exceptions.py`, `src/fastmda/crud.py` and the shutdown pass of
`src/fastmda/main.py`.

Modelling conventions:
* Python `float` values are modelled as `ℚ` (the claims only use ordering).
* A limit bound `Union[float, None]` is `Option ℚ` (`none` = unbounded).
* An endpoint object is a structure holding exactly the mutable fields the
  Python object carries plus the results of the driver-supplied abstract
  methods (`is_able_to_set`, `get_value_options`, `get_hard_limits`), which
  the core treats as opaque pure reads.
* A method that can raise returns `Except E α`; a method that mutates returns
  the new state.  `set_value` returns the resulting endpoint state, the list
  of arguments with which the driver write `_set_value` was awaited (empty on
  every failing path), and the raised exception if any.
-/

namespace FastMDA

/-- A single limit bound: `None` (no limit) or a finite value. -/
abbrev Limit := Option ℚ

/-- A `(lower, upper)` limit pair, either bound possibly absent. -/
abbrev LimitPair := Limit × Limit

/-- `objects.within_limit`: `(limits[0] is None or limits[0] <= value) and
(limits[1] is None or value <= limits[1])`. -/
def within_limit (value : ℚ) (limits : LimitPair) : Bool :=
  (match limits.1 with
   | none => true
   | some lo => decide (lo ≤ value))
  &&
  (match limits.2 with
   | none => true
   | some hi => decide (value ≤ hi))

/-- `__DiscreteValue.set_invalid_value`: append the index to
`_invalid_value_index` unless it is already present. -/
def set_invalid_value (invalid : List Int) (invalid_value_index : Int) : List Int :=
  if invalid_value_index ∈ invalid then invalid else invalid ++ [invalid_value_index]

/-- `__DiscreteValue.set_valid_value`: the body runs only when
`valid_value_index not in self._invalid_value_index`, and then
`list.remove` on an absent element raises `ValueError` (`none`); when the
index is present the guard skips the body, leaving the list unchanged. -/
def set_valid_value (invalid : List Int) (valid_value_index : Int) : Option (List Int) :=
  if valid_value_index ∈ invalid then some invalid else none

/-- `__DiscreteValue.get_invalid_values`. -/
def get_invalid_values (invalid : List Int) : List Int := invalid

/-- The parent of a `Setting` in `objects.py`: an `AbstractDevice`, a
`DiscreteActuator`, a `ContinuousActuator` or a `Detector`; the three
non-device parents carry their own id and their parent device's id. -/
inductive SettingParent where
  | device (device_id : Int)
  | discreteActuator (actuator_id : Int) (device_id : Int)
  | continuousActuator (actuator_id : Int) (device_id : Int)
  | detector (detector_id : Int) (device_id : Int)
deriving DecidableEq, Repr

/-- The device id the busy branch of `DiscreteSetting.set_value` /
`ContinuousSetting.set_value` raises with: `self.parent.device_id` when the
parent `isinstance AbstractDevice`, else `self.parent.parent.device_id`. -/
def SettingParent.busyDeviceId : SettingParent → Int
  | .device i => i
  | .discreteActuator _ d => d
  | .continuousActuator _ d => d
  | .detector _ d => d

/-- The `parent_id` computed by the `info` properties of the settings:
the parent's `device_id`, `actuator_id` or `detector_id` by `isinstance`. -/
def SettingParent.parentId : SettingParent → Int
  | .device i => i
  | .discreteActuator a _ => a
  | .continuousActuator a _ => a
  | .detector d _ => d

/-- The `grandparent_id` computed by the `info` properties of the settings:
`None` for a device parent, otherwise `self.parent.parent.device_id`. -/
def SettingParent.grandparentId : SettingParent → Option Int
  | .device _ => none
  | .discreteActuator _ d => some d
  | .continuousActuator _ d => some d
  | .detector _ d => some d

/-! ## Snapshot schemas (`schemas.py`) -/

/-- `schemas.DiscreteActuatorInfo`. -/
structure DiscreteActuatorInfo where
  name : String
  actuator_id : Int
  device_id : Int
  options : List String
  invalid_values : List Int
deriving DecidableEq, Repr

/-- `schemas.ContinuousActuatorInfo`. -/
structure ContinuousActuatorInfo where
  name : String
  actuator_id : Int
  device_id : Int
  hardware_limits : LimitPair
  software_limits : LimitPair
deriving DecidableEq, Repr

/-- `schemas.DiscreteSettingInfo`. -/
structure DiscreteSettingInfo where
  name : String
  setting_id : Int
  parent_id : Int
  grandparent_id : Option Int
  options : List String
  invalid_values : List Int
deriving DecidableEq, Repr

/-- `schemas.ContinuousSettingInfo`. -/
structure ContinuousSettingInfo where
  name : String
  setting_id : Int
  parent_id : Int
  grandparent_id : Option Int
  hard_limits : LimitPair
  soft_limits : LimitPair
deriving DecidableEq, Repr

/-- `schemas.DetectorInfo`: all four fields are required (`Field(...)`). -/
structure DetectorInfo where
  name : String
  detector_id : Int
  device_id : Int
  dimensionality : Int
deriving DecidableEq, Repr

/-! ## Endpoint states

Each state packages the Python object's own mutable fields together with the
values returned by the driver-supplied abstract reads, which the core calls
as pure functions of the object. -/

/-- A `DiscreteActuator` instance: `actuator_id`, `self.parent.device_id`,
the abstract reads `name`, `get_value_options()` and `is_able_to_set()`,
and the `__DiscreteValue` field `_invalid_value_index`. -/
structure DiscreteActuator where
  actuator_id : Int
  parent_device_id : Int
  name : String
  options : List String
  able_to_set : Bool
  invalid_value_index : List Int
deriving DecidableEq, Repr

/-- A `ContinuousActuator` instance: `actuator_id`, `self.parent.device_id`,
the abstract reads `name`, `get_hard_limits()` and `is_able_to_set()`, and
the `__ContinuousValue` field `_soft_limits`. -/
structure ContinuousActuator where
  actuator_id : Int
  parent_device_id : Int
  name : String
  hard_limits : LimitPair
  able_to_set : Bool
  soft_limits : LimitPair
deriving DecidableEq, Repr

/-- A `DiscreteSetting` instance. -/
structure DiscreteSetting where
  setting_id : Int
  parent : SettingParent
  name : String
  options : List String
  able_to_set : Bool
  invalid_value_index : List Int
deriving DecidableEq, Repr

/-- A `ContinuousSetting` instance. -/
structure ContinuousSetting where
  setting_id : Int
  parent : SettingParent
  name : String
  hard_limits : LimitPair
  able_to_set : Bool
  soft_limits : LimitPair
deriving DecidableEq, Repr

/-- A `Detector` instance: `detector_id`, `self.parent.device_id`,
the abstract read `name`, and `dimensionality`. -/
structure Detector where
  detector_id : Int
  parent_device_id : Int
  name : String
  dimensionality : Int
deriving DecidableEq, Repr

/-! ## Info projections (`info` properties of `objects.py`) -/

/-- `DiscreteActuator.info`. -/
def DiscreteActuator.info (a : DiscreteActuator) : DiscreteActuatorInfo :=
  { name := a.name
    actuator_id := a.actuator_id
    device_id := a.parent_device_id
    options := a.options
    invalid_values := get_invalid_values a.invalid_value_index }

/-- `ContinuousActuator.info`. -/
def ContinuousActuator.info (a : ContinuousActuator) : ContinuousActuatorInfo :=
  { name := a.name
    actuator_id := a.actuator_id
    device_id := a.parent_device_id
    hardware_limits := a.hard_limits
    software_limits := a.soft_limits }

/-- `DiscreteSetting.info`. -/
def DiscreteSetting.info (s : DiscreteSetting) : DiscreteSettingInfo :=
  { name := s.name
    setting_id := s.setting_id
    parent_id := s.parent.parentId
    grandparent_id := s.parent.grandparentId
    options := s.options
    invalid_values := get_invalid_values s.invalid_value_index }

/-- `ContinuousSetting.info`. -/
def ContinuousSetting.info (s : ContinuousSetting) : ContinuousSettingInfo :=
  { name := s.name
    setting_id := s.setting_id
    parent_id := s.parent.parentId
    grandparent_id := s.parent.grandparentId
    hard_limits := s.hard_limits
    soft_limits := s.soft_limits }

/-! ## Exceptions raised by `set_value` (`exceptions.py`) -/

/-- Exceptions `DiscreteActuator.set_value` can raise. -/
inductive DiscreteActuatorError where
  | isBusy (device_id : Int)
  | atHardwareLimit (actuator_info : DiscreteActuatorInfo)
  | atSoftwareLimit (actuator_info : DiscreteActuatorInfo)
deriving DecidableEq, Repr

/-- Exceptions `ContinuousActuator.set_value` can raise. -/
inductive ContinuousActuatorError where
  | isBusy (device_id : Int)
  | atHardwareLimit (actuator_info : ContinuousActuatorInfo)
  | atSoftwareLimit (actuator_info : ContinuousActuatorInfo)
deriving DecidableEq, Repr

/-- Exceptions `DiscreteSetting.set_value` can raise. -/
inductive DiscreteSettingError where
  | isBusy (device_id : Int)
  | atHardSettingLimit (setting_info : DiscreteSettingInfo)
  | atSoftSettingLimit (setting_info : DiscreteSettingInfo)
deriving DecidableEq, Repr

/-- Exceptions `ContinuousSetting.set_value` can raise. -/
inductive ContinuousSettingError where
  | isBusy (device_id : Int)
  | atHardSettingLimit (setting_info : ContinuousSettingInfo)
  | atSoftSettingLimit (setting_info : ContinuousSettingInfo)
deriving DecidableEq, Repr

/-! ## `set_value` methods

Each returns `(endpoint state after the call, arguments passed to the driver
write, outcome)`.  `set_value` assigns no field of the object on any path, so
the returned state is always the input state; the write log is empty exactly
on the failing paths. -/

/-- `DiscreteActuator.set_value` (objects.py 385-404): busy check, then
`value_index >= len(self.get_value_options())`, then
`value_index in self._invalid_value_index`, else `await self._set_value`. -/
def DiscreteActuator.set_value (a : DiscreteActuator) (value_index : Int) :
    DiscreteActuator × List Int × Except DiscreteActuatorError Unit :=
  if !a.able_to_set then
    (a, [], .error (.isBusy a.parent_device_id))
  else if (a.options.length : Int) ≤ value_index then
    (a, [], .error (.atHardwareLimit a.info))
  else if value_index ∈ a.invalid_value_index then
    (a, [], .error (.atSoftwareLimit a.info))
  else
    (a, [value_index], .ok ())

/-- `ContinuousActuator.set_value` (objects.py 452-472): busy check, then
`not within_limit(value, hard_limits)`, then soft-limit check, else
`await self._set_value`. -/
def ContinuousActuator.set_value (a : ContinuousActuator) (value : ℚ) :
    ContinuousActuator × List ℚ × Except ContinuousActuatorError Unit :=
  if !a.able_to_set then
    (a, [], .error (.isBusy a.parent_device_id))
  else if !within_limit value a.hard_limits then
    (a, [], .error (.atHardwareLimit a.info))
  else if within_limit value a.soft_limits then
    (a, [value], .ok ())
  else
    (a, [], .error (.atSoftwareLimit a.info))

/-- `DiscreteSetting.set_value` (objects.py 226-249): busy check resolving
the owning device id through the parent, then the index bound check, then the
temporarily-invalid check, else `await self._set_value`. -/
def DiscreteSetting.set_value (s : DiscreteSetting) (value_index : Int) :
    DiscreteSetting × List Int × Except DiscreteSettingError Unit :=
  if !s.able_to_set then
    (s, [], .error (.isBusy s.parent.busyDeviceId))
  else if (s.options.length : Int) ≤ value_index then
    (s, [], .error (.atHardSettingLimit s.info))
  else if value_index ∈ s.invalid_value_index then
    (s, [], .error (.atSoftSettingLimit s.info))
  else
    (s, [value_index], .ok ())

/-- `ContinuousSetting.set_value` (objects.py 300-324): busy check resolving
the owning device id through the parent, then the hard-limit check, then the
soft-limit check, else `await self._set_value`. -/
def ContinuousSetting.set_value (s : ContinuousSetting) (value : ℚ) :
    ContinuousSetting × List ℚ × Except ContinuousSettingError Unit :=
  if !s.able_to_set then
    (s, [], .error (.isBusy s.parent.busyDeviceId))
  else if !within_limit value s.hard_limits then
    (s, [], .error (.atHardSettingLimit s.info))
  else if within_limit value s.soft_limits then
    (s, [value], .ok ())
  else
    (s, [], .error (.atSoftSettingLimit s.info))

/-! ## Soft-limit accessors (`__ContinuousValue`) -/

/-- `__ContinuousValue.get_soft_limits` for a `ContinuousActuator`. -/
def ContinuousActuator.get_soft_limits (a : ContinuousActuator) : LimitPair :=
  a.soft_limits

/-- `__ContinuousValue.set_soft_limits` for a `ContinuousActuator`:
plain assignment, no validation. -/
def ContinuousActuator.set_soft_limits (a : ContinuousActuator) (limits : LimitPair) :
    ContinuousActuator :=
  { a with soft_limits := limits }

/-- `__ContinuousValue.get_soft_limits` for a `ContinuousSetting`. -/
def ContinuousSetting.get_soft_limits (s : ContinuousSetting) : LimitPair :=
  s.soft_limits

/-- `__ContinuousValue.set_soft_limits` for a `ContinuousSetting`:
plain assignment, no validation. -/
def ContinuousSetting.set_soft_limits (s : ContinuousSetting) (limits : LimitPair) :
    ContinuousSetting :=
  { s with soft_limits := limits }

/-! ## Discrete invalid-index mutators lifted to the endpoint states -/

/-- `set_invalid_value` on a `DiscreteActuator`. -/
def DiscreteActuator.set_invalid_value (a : DiscreteActuator) (i : Int) : DiscreteActuator :=
  { a with invalid_value_index := FastMDA.set_invalid_value a.invalid_value_index i }

/-- `set_valid_value` on a `DiscreteActuator` (`none` = `ValueError`). -/
def DiscreteActuator.set_valid_value (a : DiscreteActuator) (i : Int) :
    Option DiscreteActuator :=
  (FastMDA.set_valid_value a.invalid_value_index i).map
    (fun l => { a with invalid_value_index := l })

/-- `set_invalid_value` on a `DiscreteSetting`. -/
def DiscreteSetting.set_invalid_value (s : DiscreteSetting) (i : Int) : DiscreteSetting :=
  { s with invalid_value_index := FastMDA.set_invalid_value s.invalid_value_index i }

/-- `set_valid_value` on a `DiscreteSetting` (`none` = `ValueError`). -/
def DiscreteSetting.set_valid_value (s : DiscreteSetting) (i : Int) :
    Option DiscreteSetting :=
  (FastMDA.set_valid_value s.invalid_value_index i).map
    (fun l => { s with invalid_value_index := l })

/-! ## `Detector.info` against the `schemas.DetectorInfo` model

`Detector.info` (objects.py 564-577) builds `schemas.DetectorInfo` by keyword.
Pydantic v1 construction with the default config ignores unknown keywords and
raises `ValidationError` when a required field is missing, so the projection
is modelled as keyword lookup against the schema's field list. -/

/-- A python value passed as a keyword argument. -/
inductive PyVal where
  | str (s : String)
  | int (n : Int)
deriving DecidableEq, Repr

/-- Look a keyword up in a keyword-argument list. -/
def lookupKwarg (kwargs : List (String × PyVal)) (field : String) : Option PyVal :=
  (kwargs.find? (fun kv => kv.1 == field)).map (fun kv => kv.2)

/-- The keyword arguments `Detector.info` passes to `schemas.DetectorInfo`:
`name=self.name, actuator_id=self.detector_id, device_id=self.parent.device_id,
dimensionality=self.dimensionality`. -/
def Detector.infoKwargs (d : Detector) : List (String × PyVal) :=
  [("name", .str d.name),
   ("actuator_id", .int d.detector_id),
   ("device_id", .int d.parent_device_id),
   ("dimensionality", .int d.dimensionality)]

/-- Pydantic v1 construction of `schemas.DetectorInfo`: each of the four
required fields must be supplied with a value of its type; unknown keywords
are ignored; a missing required field raises `ValidationError` (`none`). -/
def DetectorInfo.construct (kwargs : List (String × PyVal)) : Option DetectorInfo :=
  match lookupKwarg kwargs "name", lookupKwarg kwargs "detector_id",
      lookupKwarg kwargs "device_id", lookupKwarg kwargs "dimensionality" with
  | some (.str n), some (.int det), some (.int dev), some (.int dim) =>
      some { name := n, detector_id := det, device_id := dev, dimensionality := dim }
  | _, _, _, _ => none

/-- `Detector.info`: construct the snapshot from the keywords the code
passes; `none` means the pydantic validation raised. -/
def Detector.info (d : Detector) : Option DetectorInfo :=
  DetectorInfo.construct (Detector.infoKwargs d)

/-! ## Shutdown disconnect pass (`main.disconnect_devices`, `crud.py`) -/

/-- A live device as the shutdown pass sees it: its id and whether its
driver `disconnect()` completes (`false` = raises `FastMDADisconnectFailed`). -/
structure LiveDevice where
  device_id : Int
  disconnect_ok : Bool
deriving DecidableEq, Repr

/-- A persisted device record, projected to `(id, is_connected)`. -/
abbrev DbRecord := Int × Bool

/-- `crud.update_device_connection_status`: look the record up by id
(`get_device_info` takes the first match); if present, assign
`is_connected` and commit, otherwise do nothing. -/
def update_device_connection_status (db : List DbRecord) (device_id : Int)
    (connection_status : Bool) : List DbRecord :=
  match db with
  | [] => []
  | r :: rest =>
    if r.1 == device_id then (r.1, connection_status) :: rest
    else r :: update_device_connection_status rest device_id connection_status

/-- `main.disconnect_devices` (main.py 118-126): iterate the live devices,
call `disconnect()` then record `is_connected = False`; there is no handler
around the loop body, so a raising `disconnect()` propagates (`.error` with
the failing device's id) and the iteration stops. -/
def disconnect_devices (devices : List LiveDevice) (db : List DbRecord) :
    Except Int (List DbRecord) :=
  match devices with
  | [] => .ok db
  | d :: rest =>
    if d.disconnect_ok then
      disconnect_devices rest (update_device_connection_status db d.device_id false)
    else
      .error d.device_id

/-! ## Sample endpoint states for concrete evaluations -/

/-- A busy discrete actuator on device 7. -/
def daBusy : DiscreteActuator := ⟨1, 7, "grating", ["off", "on"], false, []⟩

/-- An idle discrete actuator on device 7 with no invalid indices. -/
def daIdle : DiscreteActuator := ⟨1, 7, "grating", ["off", "on"], true, []⟩

/-- A busy continuous actuator on device 7. -/
def caBusy : ContinuousActuator := ⟨2, 7, "stage", (some 0, some 1000), false, (none, none)⟩

/-- An idle continuous actuator with hard limits (0, 1000), soft (0, 100). -/
def caIdle : ContinuousActuator := ⟨2, 7, "stage", (some 0, some 1000), true, (some 0, some 100)⟩

/-- An idle discrete setting whose parent is a detector on device 9,
with index 1 marked invalid. -/
def dsIdle : DiscreteSetting := ⟨3, .detector 4 9, "mode", ["a", "b", "c"], true, [1]⟩

/-- A busy discrete setting whose parent is a discrete actuator on device 9. -/
def dsBusy : DiscreteSetting := ⟨3, .discreteActuator 5 9, "mode", ["a", "b"], false, []⟩

/-- An idle continuous setting owned directly by device 9. -/
def csIdle : ContinuousSetting := ⟨4, .device 9, "gain", (some 0, some 10), true, (none, none)⟩

/-- A busy continuous setting whose parent is a continuous actuator on device 9. -/
def csBusy : ContinuousSetting := ⟨4, .continuousActuator 6 9, "gain", (none, none), false, (none, none)⟩

/-- A busy discrete setting owned directly by device 11. -/
def dsBusyDev : DiscreteSetting := ⟨5, .device 11, "range", ["x1", "x10"], false, []⟩

/-- A busy continuous setting whose parent is a detector on device 12. -/
def csBusyDet : ContinuousSetting := ⟨6, .detector 8 12, "exposure", (some 0, none), false, (none, none)⟩

/-! ## Theorems -/

/-- `within_limit` is false exactly when a finite lower bound exceeds the
value or a finite upper bound is below it. -/
theorem within_limit_eq_false_iff (v : ℚ) (lo hi : Limit) :
    within_limit v (lo, hi) = false ↔
      (∃ l, lo = some l ∧ v < l) ∨ (∃ h, hi = some h ∧ h < v) := by
  cases lo <;> cases hi <;> simp [within_limit, not_and_or, not_le]
  rename_i l h
  by_cases hl : l ≤ v
  · simp [hl, not_lt.mpr hl]
  · simp [hl, not_le.mp hl]

/-- C1: every endpoint's `set_value` checks in the order busy, hard limit,
soft limit: a non-able endpoint fails `IsBusy` for every candidate; an able
endpoint with a hard-limit-violating candidate fails with the hard-limit
error regardless of the soft state; and a soft-limit failure can only occur
when the endpoint is able to set and the candidate passes the hard check. -/
theorem set_value_busy_hard_soft_order :
    (∀ (a : DiscreteActuator) (i : Int),
      (a.able_to_set = false → (a.set_value i).2.2 = .error (.isBusy a.parent_device_id))
      ∧ (a.able_to_set = true → (a.options.length : Int) ≤ i →
          (a.set_value i).2.2 = .error (.atHardwareLimit a.info))
      ∧ (∀ e, (a.set_value i).2.2 = .error (.atSoftwareLimit e) →
          a.able_to_set = true ∧ i < (a.options.length : Int)))
    ∧
    (∀ (a : ContinuousActuator) (v : ℚ),
      (a.able_to_set = false → (a.set_value v).2.2 = .error (.isBusy a.parent_device_id))
      ∧ (a.able_to_set = true → within_limit v a.hard_limits = false →
          (a.set_value v).2.2 = .error (.atHardwareLimit a.info))
      ∧ (∀ e, (a.set_value v).2.2 = .error (.atSoftwareLimit e) →
          a.able_to_set = true ∧ within_limit v a.hard_limits = true))
    ∧
    (∀ (s : DiscreteSetting) (i : Int),
      (s.able_to_set = false → (s.set_value i).2.2 = .error (.isBusy s.parent.busyDeviceId))
      ∧ (s.able_to_set = true → (s.options.length : Int) ≤ i →
          (s.set_value i).2.2 = .error (.atHardSettingLimit s.info))
      ∧ (∀ e, (s.set_value i).2.2 = .error (.atSoftSettingLimit e) →
          s.able_to_set = true ∧ i < (s.options.length : Int)))
    ∧
    (∀ (s : ContinuousSetting) (v : ℚ),
      (s.able_to_set = false → (s.set_value v).2.2 = .error (.isBusy s.parent.busyDeviceId))
      ∧ (s.able_to_set = true → within_limit v s.hard_limits = false →
          (s.set_value v).2.2 = .error (.atHardSettingLimit s.info))
      ∧ (∀ e, (s.set_value v).2.2 = .error (.atSoftSettingLimit e) →
          s.able_to_set = true ∧ within_limit v s.hard_limits = true)) := by
  refine ⟨fun a i => ⟨?_, ?_, ?_⟩, fun a v => ⟨?_, ?_, ?_⟩,
    fun s i => ⟨?_, ?_, ?_⟩, fun s v => ⟨?_, ?_, ?_⟩⟩
  · intro h; simp [DiscreteActuator.set_value, h]
  · intro h hl; simp [DiscreteActuator.set_value, h, hl]
  · intro e he
    by_cases hb : a.able_to_set
    · by_cases hl : (a.options.length : Int) ≤ i
      · simp [DiscreteActuator.set_value, hb, hl] at he
      · exact ⟨hb, not_le.mp hl⟩
    · simp [DiscreteActuator.set_value, Bool.eq_false_iff.mpr hb] at he
  · intro h; simp [ContinuousActuator.set_value, h]
  · intro h hl; simp [ContinuousActuator.set_value, h, hl]
  · intro e he
    by_cases hb : a.able_to_set
    · by_cases hl : within_limit v a.hard_limits
      · exact ⟨hb, hl⟩
      · simp [ContinuousActuator.set_value, hb, Bool.eq_false_iff.mpr hl] at he
    · simp [ContinuousActuator.set_value, Bool.eq_false_iff.mpr hb] at he
  · intro h; simp [DiscreteSetting.set_value, h]
  · intro h hl; simp [DiscreteSetting.set_value, h, hl]
  · intro e he
    by_cases hb : s.able_to_set
    · by_cases hl : (s.options.length : Int) ≤ i
      · simp [DiscreteSetting.set_value, hb, hl] at he
      · exact ⟨hb, not_le.mp hl⟩
    · simp [DiscreteSetting.set_value, Bool.eq_false_iff.mpr hb] at he
  · intro h; simp [ContinuousSetting.set_value, h]
  · intro h hl; simp [ContinuousSetting.set_value, h, hl]
  · intro e he
    by_cases hb : s.able_to_set
    · by_cases hl : within_limit v s.hard_limits
      · exact ⟨hb, hl⟩
      · simp [ContinuousSetting.set_value, hb, Bool.eq_false_iff.mpr hl] at he
    · simp [ContinuousSetting.set_value, Bool.eq_false_iff.mpr hb] at he

/-- Witness for C1: the busy, hard and soft branches of
`set_value_busy_hard_soft_order` at concrete endpoints. -/
theorem set_value_busy_hard_soft_order_witness :
    (daBusy.set_value 0).2.2 = .error (.isBusy 7)
    ∧ (daIdle.set_value 5).2.2 = .error (.atHardwareLimit daIdle.info)
    ∧ (dsIdle.able_to_set = true ∧ (1 : Int) < (dsIdle.options.length : Int))
    ∧ (csBusy.set_value 3).2.2 = .error (.isBusy 9) := by
  have h := set_value_busy_hard_soft_order
  refine ⟨(h.1 daBusy 0).1 rfl, (h.1 daIdle 5).2.1 rfl (by decide), ?_, ?_⟩
  · exact (h.2.2.1 dsIdle 1).2.2 dsIdle.info (by rfl)
  · exact (h.2.2.2 csBusy 3).1 rfl

/-- C2 (code bug in `__DiscreteValue.set_valid_value`): the guard is
inverted, so with the index present the method is a no-op that leaves the
index invalid — `set_value` on it still fails at the soft limit — and with
the index absent it calls `list.remove` on a list not containing it,
raising `ValueError` (`none`), instead of the documented no-op. -/
theorem set_valid_value_guard_inverted :
    (daIdle.set_invalid_value 0).set_invalid_value 0 = daIdle.set_invalid_value 0
    ∧ (daIdle.set_invalid_value 0).set_valid_value 0 = some (daIdle.set_invalid_value 0)
    ∧ ((daIdle.set_invalid_value 0).set_value 0).2.2
        = .error (.atSoftwareLimit (daIdle.set_invalid_value 0).info)
    ∧ daIdle.set_valid_value 1 = none
    ∧ dsIdle.set_valid_value 1 = some dsIdle
    ∧ (dsIdle.set_value 1).2.2 = .error (.atSoftSettingLimit dsIdle.info) :=
  ⟨rfl, rfl, rfl, rfl, rfl, rfl⟩

/-- C3: on a continuous endpoint that is able to set, a candidate below a
finite lower hard bound or above a finite upper hard bound fails with the
hardware/hard-setting-limit error, whatever the soft limits are. -/
theorem continuous_hard_limit_check_first :
    ∀ (lo hi : Limit) (v : ℚ),
      ((∃ l, lo = some l ∧ v < l) ∨ (∃ h, hi = some h ∧ h < v)) →
      (∀ (a : ContinuousActuator), a.able_to_set = true → a.hard_limits = (lo, hi) →
          (a.set_value v).2.2 = .error (.atHardwareLimit a.info))
      ∧ (∀ (s : ContinuousSetting), s.able_to_set = true → s.hard_limits = (lo, hi) →
          (s.set_value v).2.2 = .error (.atHardSettingLimit s.info)) := by
  intro lo hi v hviol
  have hfalse : within_limit v (lo, hi) = false :=
    (within_limit_eq_false_iff v lo hi).mpr hviol
  constructor
  · intro a hable hhard
    simp [ContinuousActuator.set_value, hable, hhard, hfalse]
  · intro s hable hhard
    simp [ContinuousSetting.set_value, hable, hhard, hfalse]

/-- Witness for C3: a candidate below the lower hard bound of `caIdle`
(whose soft limits are set) fails with the hardware-limit error. -/
theorem continuous_hard_limit_check_first_witness :
    (caIdle.set_value (-5)).2.2 = .error (.atHardwareLimit caIdle.info) := by
  have h := continuous_hard_limit_check_first (some 0) (some 1000) (-5)
    (Or.inl ⟨0, rfl, by norm_num⟩)
  exact h.1 caIdle rfl rfl

/-- C4: on a discrete endpoint that is able to set, an index at or beyond
the options list fails with the hard-limit error, performs no driver write,
and returns the endpoint state unchanged. -/
theorem discrete_out_of_range_always_hard_limit :
    (∀ (a : DiscreteActuator) (i : Int), a.able_to_set = true →
        (a.options.length : Int) ≤ i →
        a.set_value i = (a, [], .error (.atHardwareLimit a.info)))
    ∧ (∀ (s : DiscreteSetting) (i : Int), s.able_to_set = true →
        (s.options.length : Int) ≤ i →
        s.set_value i = (s, [], .error (.atHardSettingLimit s.info))) := by
  constructor
  · intro a i h hl; simp [DiscreteActuator.set_value, h, hl]
  · intro s i h hl; simp [DiscreteSetting.set_value, h, hl]

/-- Witness for C4: index 2 against the two options of `daIdle` and index 3
against the three options of `dsIdle`. -/
theorem discrete_out_of_range_always_hard_limit_witness :
    daIdle.set_value 2 = (daIdle, [], .error (.atHardwareLimit daIdle.info))
    ∧ dsIdle.set_value 3 = (dsIdle, [], .error (.atHardSettingLimit dsIdle.info)) :=
  ⟨discrete_out_of_range_always_hard_limit.1 daIdle 2 rfl (by decide),
   discrete_out_of_range_always_hard_limit.2 dsIdle 3 rfl (by decide)⟩

/-- C5: a busy endpoint fails `IsBusy` carrying the owning device id: the
parent device's id for an actuator; for a setting, the parent's id when the
parent is a device, and the parent's parent device id when the parent is a
discrete/continuous actuator or a detector. -/
theorem busy_failure_owning_device :
    (∀ (a : DiscreteActuator) (i : Int), a.able_to_set = false →
        (a.set_value i).2.2 = .error (.isBusy a.parent_device_id))
    ∧ (∀ (a : ContinuousActuator) (v : ℚ), a.able_to_set = false →
        (a.set_value v).2.2 = .error (.isBusy a.parent_device_id))
    ∧ (∀ (s : DiscreteSetting) (i d : Int), s.able_to_set = false →
        s.parent = .device d → (s.set_value i).2.2 = .error (.isBusy d))
    ∧ (∀ (s : DiscreteSetting) (i a d : Int), s.able_to_set = false →
        s.parent = .discreteActuator a d → (s.set_value i).2.2 = .error (.isBusy d))
    ∧ (∀ (s : DiscreteSetting) (i a d : Int), s.able_to_set = false →
        s.parent = .continuousActuator a d → (s.set_value i).2.2 = .error (.isBusy d))
    ∧ (∀ (s : DiscreteSetting) (i dd d : Int), s.able_to_set = false →
        s.parent = .detector dd d → (s.set_value i).2.2 = .error (.isBusy d))
    ∧ (∀ (s : ContinuousSetting) (v : ℚ) (d : Int), s.able_to_set = false →
        s.parent = .device d → (s.set_value v).2.2 = .error (.isBusy d))
    ∧ (∀ (s : ContinuousSetting) (v : ℚ) (a d : Int), s.able_to_set = false →
        s.parent = .discreteActuator a d → (s.set_value v).2.2 = .error (.isBusy d))
    ∧ (∀ (s : ContinuousSetting) (v : ℚ) (a d : Int), s.able_to_set = false →
        s.parent = .continuousActuator a d → (s.set_value v).2.2 = .error (.isBusy d))
    ∧ (∀ (s : ContinuousSetting) (v : ℚ) (dd d : Int), s.able_to_set = false →
        s.parent = .detector dd d → (s.set_value v).2.2 = .error (.isBusy d)) := by
  refine ⟨?_, ?_, ?_, ?_, ?_, ?_, ?_, ?_, ?_, ?_⟩
  · intro a i h; simp [DiscreteActuator.set_value, h]
  · intro a v h; simp [ContinuousActuator.set_value, h]
  · intro s i d h hp; simp [DiscreteSetting.set_value, h, hp, SettingParent.busyDeviceId]
  · intro s i a d h hp; simp [DiscreteSetting.set_value, h, hp, SettingParent.busyDeviceId]
  · intro s i a d h hp; simp [DiscreteSetting.set_value, h, hp, SettingParent.busyDeviceId]
  · intro s i dd d h hp; simp [DiscreteSetting.set_value, h, hp, SettingParent.busyDeviceId]
  · intro s v d h hp; simp [ContinuousSetting.set_value, h, hp, SettingParent.busyDeviceId]
  · intro s v a d h hp; simp [ContinuousSetting.set_value, h, hp, SettingParent.busyDeviceId]
  · intro s v a d h hp; simp [ContinuousSetting.set_value, h, hp, SettingParent.busyDeviceId]
  · intro s v dd d h hp; simp [ContinuousSetting.set_value, h, hp, SettingParent.busyDeviceId]

/-- Witness for C5: busy failures at endpoints covering all parent shapes. -/
theorem busy_failure_owning_device_witness :
    (daBusy.set_value 0).2.2 = .error (.isBusy 7)
    ∧ (caBusy.set_value 3).2.2 = .error (.isBusy 7)
    ∧ (dsBusyDev.set_value 0).2.2 = .error (.isBusy 11)
    ∧ (dsBusy.set_value 0).2.2 = .error (.isBusy 9)
    ∧ (csBusy.set_value 3).2.2 = .error (.isBusy 9)
    ∧ (csBusyDet.set_value 3).2.2 = .error (.isBusy 12) := by
  have h := busy_failure_owning_device
  exact ⟨h.1 daBusy 0 rfl, h.2.1 caBusy 3 rfl,
    h.2.2.1 dsBusyDev 0 11 rfl rfl,
    h.2.2.2.1 dsBusy 0 5 9 rfl rfl,
    h.2.2.2.2.2.2.2.2.1 csBusy 3 6 9 rfl rfl,
    h.2.2.2.2.2.2.2.2.2 csBusyDet 3 8 12 rfl rfl⟩

/-- C6: setting the soft limits of a continuous endpoint is a plain
assignment with no validation against the hard limits: any limit pair is
stored and read back exactly, and no other field of the endpoint changes. -/
theorem soft_limits_roundtrip :
    (∀ (a : ContinuousActuator) (L : LimitPair),
        (a.set_soft_limits L).get_soft_limits = L
        ∧ (a.set_soft_limits L).actuator_id = a.actuator_id
        ∧ (a.set_soft_limits L).parent_device_id = a.parent_device_id
        ∧ (a.set_soft_limits L).name = a.name
        ∧ (a.set_soft_limits L).hard_limits = a.hard_limits
        ∧ (a.set_soft_limits L).able_to_set = a.able_to_set)
    ∧ (∀ (s : ContinuousSetting) (L : LimitPair),
        (s.set_soft_limits L).get_soft_limits = L
        ∧ (s.set_soft_limits L).setting_id = s.setting_id
        ∧ (s.set_soft_limits L).parent = s.parent
        ∧ (s.set_soft_limits L).name = s.name
        ∧ (s.set_soft_limits L).hard_limits = s.hard_limits
        ∧ (s.set_soft_limits L).able_to_set = s.able_to_set) :=
  ⟨fun _ _ => ⟨rfl, rfl, rfl, rfl, rfl, rfl⟩,
   fun _ _ => ⟨rfl, rfl, rfl, rfl, rfl, rfl⟩⟩

/-- C7 counterexample: with devices 1 and 2 live and device 1's
`disconnect()` raising `DisconnectFailed`, the shutdown pass propagates the
failure from device 1 and aborts: the disconnect of device 2 is never
attempted and no updated record store is produced, contradicting the claim
that each failure is collected and the remaining devices are attempted. -/
theorem disconnect_devices_abort_counterexample :
    disconnect_devices [⟨1, false⟩, ⟨2, true⟩] [(1, true), (2, true)] = .error 1 := rfl

/-- C7 amended: the shutdown pass calls `disconnect()` on each live device
in order and records `is_connected = False` for it; when every disconnect
succeeds all devices are processed, but the first raising disconnect
propagates and aborts the pass, so the remaining devices are not attempted
and their records are not updated. -/
theorem disconnect_devices_amended :
    (∀ (devs : List LiveDevice) (db : List DbRecord),
        (∀ d ∈ devs, d.disconnect_ok = true) →
        disconnect_devices devs db =
          .ok (devs.foldl
            (fun acc d => update_device_connection_status acc d.device_id false) db))
    ∧ (∀ (pre : List LiveDevice) (d : LiveDevice) (post : List LiveDevice)
          (db : List DbRecord),
        (∀ p ∈ pre, p.disconnect_ok = true) → d.disconnect_ok = false →
        disconnect_devices (pre ++ d :: post) db = .error d.device_id) := by
  constructor
  · intro devs
    induction devs with
    | nil => intro db _; rfl
    | cons hd tl ih =>
      intro db hall
      have hhd : hd.disconnect_ok = true := hall hd (List.mem_cons_self _ _)
      simp only [disconnect_devices, hhd, if_true, List.foldl_cons]
      exact ih _ (fun d hd' => hall d (List.mem_cons_of_mem _ hd'))
  · intro pre
    induction pre with
    | nil =>
      intro d post db _ hdf
      simp [disconnect_devices, hdf]
    | cons hd tl ih =>
      intro d post db hall hdf
      have hhd : hd.disconnect_ok = true := hall hd (List.mem_cons_self _ _)
      simp only [List.cons_append, disconnect_devices, hhd, if_true]
      exact ih d post _ (fun p hp => hall p (List.mem_cons_of_mem _ hp)) hdf

/-- Witness for C7 amended: a fully successful pass updates both records to
disconnected; a pass whose second device fails aborts with that device. -/
theorem disconnect_devices_amended_witness :
    disconnect_devices [⟨1, true⟩, ⟨2, true⟩] [(1, true), (2, true)]
      = .ok [(1, false), (2, false)]
    ∧ disconnect_devices [⟨1, true⟩, ⟨2, false⟩, ⟨3, true⟩]
        [(1, true), (2, true), (3, true)] = .error 2 := by
  have h := disconnect_devices_amended
  constructor
  · have h1 := h.1 [⟨1, true⟩, ⟨2, true⟩] [(1, true), (2, true)] (by decide)
    rw [h1]; rfl
  · exact h.2 [⟨1, true⟩] ⟨2, false⟩ [⟨3, true⟩]
      [(1, true), (2, true), (3, true)] (by decide) rfl

/-- C8 (code bug in `Detector.info`): the constructor call passes the
detector's id under the keyword `actuator_id` and never supplies the
required `detector_id` field of `schemas.DetectorInfo`, so the pydantic
validation rejects the call for every detector: the snapshot is never
produced. -/
theorem detector_info_never_validates :
    (∀ (d : Detector), d.info = none)
    ∧ lookupKwarg (Detector.infoKwargs ⟨1, 2, "spectrometer", 1⟩) "detector_id" = none
    ∧ lookupKwarg (Detector.infoKwargs ⟨1, 2, "spectrometer", 1⟩) "actuator_id"
        = some (.int 1) :=
  ⟨fun _ => rfl, rfl, rfl⟩

/-- C9: an inverted soft-limit pair (both bounds finite, lower above upper)
makes `within_limit` false at every value, so after `set_soft_limits` with
such a pair every `set_value` on a non-busy continuous endpoint whose
candidate passes the hard limits fails at the soft limit. -/
theorem inverted_soft_limits_block_all_sets :
    (∀ (v lo hi : ℚ), hi < lo → within_limit v (some lo, some hi) = false)
    ∧ (∀ (a : ContinuousActuator) (v lo hi : ℚ), hi < lo → a.able_to_set = true →
        within_limit v a.hard_limits = true →
        ((a.set_soft_limits (some lo, some hi)).set_value v).2.2
          = .error (.atSoftwareLimit (a.set_soft_limits (some lo, some hi)).info))
    ∧ (∀ (s : ContinuousSetting) (v lo hi : ℚ), hi < lo → s.able_to_set = true →
        within_limit v s.hard_limits = true →
        ((s.set_soft_limits (some lo, some hi)).set_value v).2.2
          = .error (.atSoftSettingLimit (s.set_soft_limits (some lo, some hi)).info)) := by
  have hwl : ∀ (v lo hi : ℚ), hi < lo → within_limit v (some lo, some hi) = false := by
    intro v lo hi hlt
    refine (within_limit_eq_false_iff v (some lo) (some hi)).mpr ?_
    by_cases hv : v < lo
    · exact Or.inl ⟨lo, rfl, hv⟩
    · exact Or.inr ⟨hi, rfl, lt_of_lt_of_le hlt (not_lt.mp hv)⟩
  refine ⟨hwl, ?_, ?_⟩
  · intro a v lo hi hlt hable hhard
    simp [ContinuousActuator.set_value, ContinuousActuator.set_soft_limits,
      hable, hhard, hwl v lo hi hlt]
  · intro s v lo hi hlt hable hhard
    simp [ContinuousSetting.set_value, ContinuousSetting.set_soft_limits,
      hable, hhard, hwl v lo hi hlt]

/-- Witness for C9: `csIdle` with soft limits set to (5, 2) rejects the
hard-legal candidate 3 at the soft limit. -/
theorem inverted_soft_limits_block_all_sets_witness :
    ((csIdle.set_soft_limits (some 5, some 2)).set_value 3).2.2
      = .error (.atSoftSettingLimit (csIdle.set_soft_limits (some 5, some 2)).info) :=
  inverted_soft_limits_block_all_sets.2.2 csIdle 3 5 2 (by norm_num) rfl (by decide)

/-- C10: a `set_value` call that fails — with any of the three failure
kinds, on any of the four endpoint classes — returns the endpoint state
exactly as it was and performs no driver write. -/
theorem set_value_failure_frame :
    (∀ (a : DiscreteActuator) (i : Int) (e : DiscreteActuatorError),
        (a.set_value i).2.2 = .error e →
        (a.set_value i).1 = a ∧ (a.set_value i).2.1 = [])
    ∧ (∀ (a : ContinuousActuator) (v : ℚ) (e : ContinuousActuatorError),
        (a.set_value v).2.2 = .error e →
        (a.set_value v).1 = a ∧ (a.set_value v).2.1 = [])
    ∧ (∀ (s : DiscreteSetting) (i : Int) (e : DiscreteSettingError),
        (s.set_value i).2.2 = .error e →
        (s.set_value i).1 = s ∧ (s.set_value i).2.1 = [])
    ∧ (∀ (s : ContinuousSetting) (v : ℚ) (e : ContinuousSettingError),
        (s.set_value v).2.2 = .error e →
        (s.set_value v).1 = s ∧ (s.set_value v).2.1 = []) := by
  refine ⟨?_, ?_, ?_, ?_⟩
  · intro a i e he
    by_cases h1 : (!a.able_to_set) = true
    · simp [DiscreteActuator.set_value, h1]
    · by_cases h2 : (a.options.length : Int) ≤ i
      · simp [DiscreteActuator.set_value, h1, h2]
      · by_cases h3 : i ∈ a.invalid_value_index
        · simp [DiscreteActuator.set_value, h1, h2, h3]
        · simp [DiscreteActuator.set_value, h1, h2, h3] at he
  · intro a v e he
    by_cases h1 : (!a.able_to_set) = true
    · simp [ContinuousActuator.set_value, h1]
    · by_cases h2 : (!within_limit v a.hard_limits) = true
      · simp [ContinuousActuator.set_value, h1, h2]
      · by_cases h3 : within_limit v a.soft_limits = true
        · simp [ContinuousActuator.set_value, h1, h2, h3] at he
        · simp [ContinuousActuator.set_value, h1, h2, h3]
  · intro s i e he
    by_cases h1 : (!s.able_to_set) = true
    · simp [DiscreteSetting.set_value, h1]
    · by_cases h2 : (s.options.length : Int) ≤ i
      · simp [DiscreteSetting.set_value, h1, h2]
      · by_cases h3 : i ∈ s.invalid_value_index
        · simp [DiscreteSetting.set_value, h1, h2, h3]
        · simp [DiscreteSetting.set_value, h1, h2, h3] at he
  · intro s v e he
    by_cases h1 : (!s.able_to_set) = true
    · simp [ContinuousSetting.set_value, h1]
    · by_cases h2 : (!within_limit v s.hard_limits) = true
      · simp [ContinuousSetting.set_value, h1, h2]
      · by_cases h3 : within_limit v s.soft_limits = true
        · simp [ContinuousSetting.set_value, h1, h2, h3] at he
        · simp [ContinuousSetting.set_value, h1, h2, h3]

/-- Witness for C10: a busy discrete failure and a soft-limit continuous
failure leave the respective endpoints untouched with no write. -/
theorem set_value_failure_frame_witness :
    ((daBusy.set_value 0).1 = daBusy ∧ (daBusy.set_value 0).2.1 = [])
    ∧ ((caIdle.set_value 500).1 = caIdle ∧ (caIdle.set_value 500).2.1 = []) := by
  have h := set_value_failure_frame
  exact ⟨h.1 daBusy 0 (.isBusy 7) rfl,
    h.2.1 caIdle 500 (.atSoftwareLimit caIdle.info) rfl⟩
